import Mathlib

/-!
Multi-coil MI MAC versus CSMA/CA: the energy ledger and the two scripted sessions.

A shallow embedding of `scratch/mi-mac-comparison.cc`, and of the session of
`scratch/mi-mac-demo.cc`.

Conventions of the embedding:

* C++ `double` values are exact rationals (`ℚ`). The only operation whose IEEE 754 result
  is not a finite number for finite operands, the division in `CompareProtocols`, returns a
  `DoubleValue`, which keeps the infinite and the NaN outcome apart from the finite ones.
* C++ `int` values are `Int`s kept in the range of a 32-bit two's complement `int`. The
  statement `x++` on the counters wraps from 2147483647 to -2147483648, as the compiled
  program does (`intIncrement`); signed overflow is undefined behaviour in the C++ standard.
* The functions of the source return `void` and mutate an `EnergyMetrics&`; here they take
  the ledger and return the new one.
* The narration written to `std::cout` is not modelled as text. Each call of
  `StateTransition`, each inline hold charge and each call of `SendPacket` made by a session
  is recorded, in program order, as a `Step` of the session's trace, with the ledger as it
  is right after the call.
-/

set_option linter.unusedVariables false

namespace MiMac

/-- The enumeration `PacketType` (lines 9-15). -/
inductive PacketType where
  | REV_PACKET
  | ACK_PACKET
  | DATA_PACKET
  | RTS_PACKET
  | CTS_PACKET
  deriving DecidableEq, Repr

/-- The enumeration `NodeState` (lines 23-29). -/
inductive NodeState where
  | STATE_IDLE
  | STATE_RECEIVE
  | STATE_CHANNEL_SENSING
  | STATE_DATA_ACQUIRE
  | STATE_TRANSMIT
  deriving DecidableEq, Repr

/-- The struct `EnergyMetrics` (lines 36-45) with its default member initialisers. -/
structure EnergyMetrics where
  idleCurrent : ℚ := 50.0
  receiveCurrent : ℚ := 200.0
  dataAcquireCurrent : ℚ := 250.0
  channelSensingCurrent : ℚ := 200.0
  transmitCurrent : ℚ := 1120.0
  totalEnergy : ℚ := 0.0
  stateTransitions : Int := 0
  packetsSent : Int := 0
  deriving DecidableEq

/-- The value that a 32-bit two's complement `int` holds for the integer `n`. -/
def wrapInt (n : Int) : Int :=
  (n + 2147483648) % 4294967296 - 2147483648

/-- The statement `x++` on an `int`: the successor, wrapped into the range of `int`. -/
def intIncrement (x : Int) : Int :=
  wrapInt (x + 1)

/-- The ledger effect of `StateTransition` (lines 69-73): `energy.stateTransitions++`,
whatever `from_`, `to_` and `reason` are. -/
def StateTransition (from_ to_ : NodeState) (reason : String) (energy : EnergyMetrics) :
    EnergyMetrics :=
  { energy with stateTransitions := intIncrement energy.stateTransitions }

/-- The ledger effect of `SendPacket` (lines 75-97). The `if`/`else if` chain on `type` is
kept in the order of the source; `txCoil`, `sender` and `receiver` are only printed. -/
def SendPacket (type : PacketType) (txCoil : Int) (sender receiver : String)
    (energy : EnergyMetrics) : EnergyMetrics :=
  let energy : EnergyMetrics :=
    if type = PacketType.REV_PACKET then
      { energy with totalEnergy := energy.totalEnergy + 13 * 8 * energy.transmitCurrent * 0.001 }
    else if type = PacketType.ACK_PACKET ∨ type = PacketType.CTS_PACKET then
      { energy with totalEnergy := energy.totalEnergy + 5 * 8 * energy.transmitCurrent * 0.001 }
    else if type = PacketType.DATA_PACKET then
      { energy with totalEnergy := energy.totalEnergy + 10 * 8 * energy.transmitCurrent * 0.001 }
    else if type = PacketType.RTS_PACKET then
      { energy with totalEnergy := energy.totalEnergy + 20 * 8 * energy.transmitCurrent * 0.001 }
    else energy
  { energy with packetsSent := intIncrement energy.packetsSent }

/-- The table `coilNames` (line 33). -/
def coilNames : List String := ["X", "Y", "Z"]

/-- The table `rssiValues` local to `CalculateRSSI` (line 48). -/
def rssiValues : List ℚ := [-45.5, -52.3, -48.7]

/-- The body of `CalculateRSSI` (lines 47-50) over a given readings table: the array read
`rssiValues[coilId]`. An index outside the table has no defined value (`none`). -/
def CalculateRSSIFrom (table : List ℚ) (coilId : Int) : Option ℚ :=
  if coilId < 0 then none else table.get? coilId.toNat

/-- The function `CalculateRSSI` (lines 47-50). -/
def CalculateRSSI (coilId : Int) : Option ℚ :=
  CalculateRSSIFrom rssiValues coilId

/-- The array read `coilNames[i]` made for the narration. An index outside the table has
no defined value (`none`). -/
def coilNameAt (i : Int) : Option String :=
  if i < 0 then none else coilNames.get? i.toNat

/-- One iteration of the loop of `SelectBestCoil` (lines 58-63) on the pair
`(bestCoil, maxRSSI)`. -/
def selectBody (table : List ℚ) (acc : Int × ℚ) (i : Int) : Option (Int × ℚ) := do
  let rssi ← CalculateRSSIFrom table i
  let _ ← coilNameAt i
  if rssi > acc.2 then pure (i, rssi) else pure acc

/-- The function `SelectBestCoil` (lines 52-67) over a given readings table: the loop
`for (int i = 0; i < 3; i++)` started from `bestCoil = COIL_X`, `maxRSSI = -1000`. The
result is the returned `bestCoil` together with the `maxRSSI` printed with it on line 65. -/
def SelectBestCoilFrom (table : List ℚ) : Option (Int × ℚ) := do
  let acc ← [(0 : Int), 1, 2].foldlM (selectBody table) ((0 : Int), (-1000 : ℚ))
  let _ ← coilNameAt acc.1
  pure acc

/-- The function `SelectBestCoil` (lines 52-67). -/
def SelectBestCoil : Option (Int × ℚ) :=
  SelectBestCoilFrom rssiValues

/-- The value of a C++ `double` expression: a finite number, an infinity (of either sign),
or NaN. -/
inductive DoubleValue where
  | finite (q : ℚ)
  | infinite
  | nan
  deriving DecidableEq

/-- IEEE 754 division of two finite numbers: a non-zero number divided by zero is an
infinity, zero divided by zero is NaN. -/
def DoubleValue.div (x y : ℚ) : DoubleValue :=
  if y = 0 then (if x = 0 then DoubleValue.nan else DoubleValue.infinite)
  else DoubleValue.finite (x / y)

/-- Multiplication of a `double` value by a finite non-zero constant. -/
def DoubleValue.scale (d : DoubleValue) (k : ℚ) : DoubleValue :=
  match d with
  | DoubleValue.finite q => DoubleValue.finite (q * k)
  | DoubleValue.infinite => DoubleValue.infinite
  | DoubleValue.nan => DoubleValue.nan

/-- The value `energySaving` that `CompareProtocols` computes on line 314 and prints on
line 322. No statement of the function tests `csmaCa.totalEnergy` before the division. -/
def CompareProtocols (miMac csmaCa : EnergyMetrics) : DoubleValue :=
  (DoubleValue.div (csmaCa.totalEnergy - miMac.totalEnergy) csmaCa.totalEnergy).scale 100

/-- The current member of the ledger that belongs to a state (lines 37-41). -/
def currentDraw (energy : EnergyMetrics) : NodeState → ℚ
  | NodeState.STATE_IDLE => energy.idleCurrent
  | NodeState.STATE_RECEIVE => energy.receiveCurrent
  | NodeState.STATE_CHANNEL_SENSING => energy.channelSensingCurrent
  | NodeState.STATE_DATA_ACQUIRE => energy.dataAcquireCurrent
  | NodeState.STATE_TRANSMIT => energy.transmitCurrent

/-- An inline hold charge of a session, `energy.totalEnergy += energy.<state>Current * units;`
(for instance line 114, `energy.totalEnergy += energy.dataAcquireCurrent * 10;`). -/
def chargeHold (state : NodeState) (units : ℚ) (energy : EnergyMetrics) : EnergyMetrics :=
  { energy with totalEnergy := energy.totalEnergy + currentDraw energy state * units }

/-- Lines 79-81 of `SendPacket`: the coil name printed when `txCoil >= 0` (`some none` when
nothing is printed). An index outside `coilNames` has no defined value (`none`). -/
def SendPacketCoilLine (txCoil : Int) : Option (Option String) :=
  if txCoil ≥ 0 then (coilNameAt txCoil).map some else some none

/-- The two nodes of a session; each has its own state variable (`sourceState`,
`destState`). -/
inductive Role where
  | source
  | destination
  deriving DecidableEq, Repr

/-- What a session does to the ledger, one entry per statement that touches it. -/
inductive Event where
  | transition (role : Role) (from_ to_ : NodeState) (reason : String)
  | hold (state : NodeState) (units : ℚ)
  | send (type : PacketType) (txCoil : Int) (sender receiver : String)
  deriving DecidableEq

/-- An event of a session with the ledger as it is right after it. -/
structure Step where
  event : Event
  after : EnergyMetrics
  deriving DecidableEq

/-- The ledger of a running session and the steps made so far, oldest first. -/
structure Run where
  energy : EnergyMetrics
  trace : List Step
  deriving DecidableEq

/-- A call `StateTransition(<role>State, to_, reason, energy)` of a session. -/
def Run.transition (run : Run) (role : Role) (from_ to_ : NodeState) (reason : String) : Run :=
  let energy := StateTransition from_ to_ reason run.energy
  { energy := energy, trace := run.trace ++ [⟨Event.transition role from_ to_ reason, energy⟩] }

/-- An inline hold charge of a session. -/
def Run.hold (run : Run) (state : NodeState) (units : ℚ) : Run :=
  let energy := chargeHold state units run.energy
  { energy := energy, trace := run.trace ++ [⟨Event.hold state units, energy⟩] }

/-- A call `SendPacket(type, txCoil, sender, receiver, energy)` of a session. -/
def Run.send (run : Run) (type : PacketType) (txCoil : Int) (sender receiver : String) :
    Option Run := do
  let _ ← SendPacketCoilLine txCoil
  let energy := SendPacket type txCoil sender receiver run.energy
  pure { energy := energy,
         trace := run.trace ++ [⟨Event.send type txCoil sender receiver, energy⟩] }

/-- What a session leaves behind: the returned ledger, the steps made, the final values of
the local variables `sourceState` and `destState`, and `bestCoil` where the session has it. -/
structure Outcome where
  energy : EnergyMetrics
  trace : List Step
  sourceState : NodeState
  destState : NodeState
  bestCoil : Option Int
  deriving DecidableEq

/-- The body of `SimulateMultiCoilMIMACProtocol` (lines 99-193), statement by statement,
over a given readings table for the call of `SelectBestCoil` on line 147; the number of the
source line is given before each group. -/
def SimulateMultiCoilMIMACProtocolFrom (table : List ℚ) : Option Outcome := do
  -- 100, 108
  let run : Run := { energy := {}, trace := [] }
  let sourceState := NodeState.STATE_IDLE
  -- 112-114
  let run := run.transition Role.source sourceState NodeState.STATE_DATA_ACQUIRE "Sensor interrupt"
  let sourceState := NodeState.STATE_DATA_ACQUIRE
  let run := run.hold NodeState.STATE_DATA_ACQUIRE 10
  -- 119-121
  let run := run.transition Role.source sourceState NodeState.STATE_CHANNEL_SENSING "Data ready"
  let sourceState := NodeState.STATE_CHANNEL_SENSING
  let run := run.hold NodeState.STATE_CHANNEL_SENSING 5
  -- 126-127
  let run := run.transition Role.source sourceState NodeState.STATE_TRANSMIT "Channel clear"
  let sourceState := NodeState.STATE_TRANSMIT
  -- 130-133: for (int coil = 0; coil < 3; coil++)
  let run ← [(0 : Int), 1, 2].foldlM
    (fun run coil => run.send PacketType.REV_PACKET coil "Source" "Destination") run
  -- 135-137
  let run := run.transition Role.source sourceState NodeState.STATE_RECEIVE "Waiting for ACK"
  let sourceState := NodeState.STATE_RECEIVE
  let run := run.hold NodeState.STATE_RECEIVE 5
  -- 140-145
  let destState := NodeState.STATE_IDLE
  let run := run.transition Role.destination destState NodeState.STATE_RECEIVE
    "Packet received with correct ID"
  let destState := NodeState.STATE_RECEIVE
  let run := run.hold NodeState.STATE_RECEIVE 15
  -- 147
  let (bestCoil, _) ← SelectBestCoilFrom table
  -- 150-152
  let run := run.transition Role.destination destState NodeState.STATE_CHANNEL_SENSING
    "REV received, sending ACK"
  let destState := NodeState.STATE_CHANNEL_SENSING
  let run := run.hold NodeState.STATE_CHANNEL_SENSING 3
  -- 155-156
  let run := run.transition Role.destination destState NodeState.STATE_TRANSMIT "Channel clear"
  let destState := NodeState.STATE_TRANSMIT
  -- 158
  let run ← run.send PacketType.ACK_PACKET bestCoil "Destination" "Source"
  -- 160-161
  let run := run.transition Role.destination destState NodeState.STATE_RECEIVE "Waiting for data"
  let destState := NodeState.STATE_RECEIVE
  -- 164: coilNames[bestCoil]
  let _ ← coilNameAt bestCoil
  -- 167-169
  let run := run.transition Role.source sourceState NodeState.STATE_CHANNEL_SENSING
    "Ready to send data"
  let sourceState := NodeState.STATE_CHANNEL_SENSING
  let run := run.hold NodeState.STATE_CHANNEL_SENSING 3
  -- 172-173
  let run := run.transition Role.source sourceState NodeState.STATE_TRANSMIT "Channel clear"
  let sourceState := NodeState.STATE_TRANSMIT
  -- 175
  let run ← run.send PacketType.DATA_PACKET bestCoil "Source" "Destination"
  -- 177-178
  let run := run.transition Role.source sourceState NodeState.STATE_IDLE "Transmission complete"
  let sourceState := NodeState.STATE_IDLE
  -- 183
  let run := run.hold NodeState.STATE_RECEIVE 10
  -- 185-186
  let run := run.transition Role.destination destState NodeState.STATE_IDLE
    "Data received completely"
  let destState := NodeState.STATE_IDLE
  -- 192
  pure { energy := run.energy, trace := run.trace, sourceState := sourceState,
         destState := destState, bestCoil := some bestCoil }

/-- The function `SimulateMultiCoilMIMACProtocol` (lines 99-193). -/
def SimulateMultiCoilMIMACProtocol : Option Outcome :=
  SimulateMultiCoilMIMACProtocolFrom rssiValues

/-- The function `SimulateTraditionalCSMACA` (lines 195-294), statement by statement; the
number of the source line is given before each group. -/
def SimulateTraditionalCSMACA : Option Outcome := do
  -- 196, 204
  let run : Run := { energy := {}, trace := [] }
  let sourceState := NodeState.STATE_IDLE
  -- 208-210
  let run := run.transition Role.source sourceState NodeState.STATE_DATA_ACQUIRE "Data collection"
  let sourceState := NodeState.STATE_DATA_ACQUIRE
  let run := run.hold NodeState.STATE_DATA_ACQUIRE 10
  -- 215-217
  let run := run.transition Role.source sourceState NodeState.STATE_CHANNEL_SENSING "Data ready"
  let sourceState := NodeState.STATE_CHANNEL_SENSING
  let run := run.hold NodeState.STATE_CHANNEL_SENSING 8
  -- 222-223
  let run := run.transition Role.source sourceState NodeState.STATE_TRANSMIT "Channel clear"
  let sourceState := NodeState.STATE_TRANSMIT
  -- 226
  let run ← run.send PacketType.RTS_PACKET (-1) "Source" "Destination"
  -- 228-230
  let run := run.transition Role.source sourceState NodeState.STATE_RECEIVE "Waiting for CTS"
  let sourceState := NodeState.STATE_RECEIVE
  let run := run.hold NodeState.STATE_RECEIVE 8
  -- 233-238
  let destState := NodeState.STATE_IDLE
  let run := run.transition Role.destination destState NodeState.STATE_RECEIVE "Packet received"
  let destState := NodeState.STATE_RECEIVE
  let run := run.hold NodeState.STATE_RECEIVE 20
  -- 241-243
  let run := run.transition Role.destination destState NodeState.STATE_CHANNEL_SENSING
    "RTS received, sending CTS"
  let destState := NodeState.STATE_CHANNEL_SENSING
  let run := run.hold NodeState.STATE_CHANNEL_SENSING 5
  -- 246-247
  let run := run.transition Role.destination destState NodeState.STATE_TRANSMIT "Channel clear"
  let destState := NodeState.STATE_TRANSMIT
  -- 250
  let run ← run.send PacketType.CTS_PACKET (-1) "Destination" "Source"
  -- 252-253
  let run := run.transition Role.destination destState NodeState.STATE_RECEIVE "Waiting for data"
  let destState := NodeState.STATE_RECEIVE
  -- 258-259
  let run := run.transition Role.source sourceState NodeState.STATE_TRANSMIT "Ready to send data"
  let sourceState := NodeState.STATE_TRANSMIT
  -- 262
  let run ← run.send PacketType.DATA_PACKET (-1) "Source" "Destination"
  -- 265-267
  let run := run.transition Role.source sourceState NodeState.STATE_RECEIVE "Waiting for ACK"
  let sourceState := NodeState.STATE_RECEIVE
  let run := run.hold NodeState.STATE_RECEIVE 5
  -- 272
  let run := run.hold NodeState.STATE_RECEIVE 10
  -- 274-275
  let run := run.transition Role.destination destState NodeState.STATE_TRANSMIT "Sending ACK"
  let destState := NodeState.STATE_TRANSMIT
  -- 278
  let run ← run.send PacketType.ACK_PACKET (-1) "Destination" "Source"
  -- 280-281
  let run := run.transition Role.destination destState NodeState.STATE_IDLE
    "Transmission complete"
  let destState := NodeState.STATE_IDLE
  -- 286-287
  let run := run.transition Role.source sourceState NodeState.STATE_IDLE "Communication complete"
  let sourceState := NodeState.STATE_IDLE
  -- 293
  pure { energy := run.energy, trace := run.trace, sourceState := sourceState,
         destState := destState, bestCoil := none }

/-- The part of `main` (lines 348-351) that runs the two sessions and compares them. -/
def mainComparison : Option DoubleValue := do
  let miMacMetrics ← SimulateMultiCoilMIMACProtocol
  let csmaCaMetrics ← SimulateTraditionalCSMACA
  pure (CompareProtocols miMacMetrics.energy csmaCaMetrics.energy)

/-- The number of sends of a given packet type in a trace. -/
def sendCount (type : PacketType) (trace : List Step) : Nat :=
  (trace.filter (fun step =>
    match step.event with
    | Event.send t _ _ _ => decide (t = type)
    | _ => false)).length

/-- The number of `StateTransition` calls made for a role in a trace. -/
def transitionCount (role : Role) (trace : List Step) : Nat :=
  (trace.filter (fun step =>
    match step.event with
    | Event.transition r _ _ _ => decide (r = role)
    | _ => false)).length

/-- Two adjacent steps of a trace agree with an unscaled hold charge: when the later one is a
hold of `units` in `state`, its `totalEnergy` is the earlier one's plus the state's current
times `units`. -/
def holdDelta (prev step : Step) : Prop :=
  match step.event with
  | Event.hold state units =>
      step.after.totalEnergy = prev.after.totalEnergy + currentDraw prev.after state * units
  | _ => True

/-- Readings with a tie for the maximum: X = -50, Y = -40, Z = -40. -/
def tiedReadings : Fin 3 → ℚ := ![-50, -40, -40]

/-- The events of a session, in order, without the ledgers. -/
def Outcome.events (outcome : Outcome) : List Event :=
  outcome.trace.map Step.event

/-- The transitions requested for a role among the events, in order, as pairs
`(from_, to_)`. -/
def transitionsOf (role : Role) (events : List Event) : List (NodeState × NodeState) :=
  events.filterMap (fun event =>
    match event with
    | Event.transition r from_ to_ _ => if r = role then some (from_, to_) else none
    | _ => none)

/-- The packet sends among the events, in order, as `(type, txCoil, sender, receiver)`. -/
def sendsOf (events : List Event) : List (PacketType × Int × String × String) :=
  events.filterMap (fun event =>
    match event with
    | Event.send type txCoil sender receiver => some (type, txCoil, sender, receiver)
    | _ => none)

/-- The number of sends of a type other than DATA among the events. -/
def controlCount (events : List Event) : Nat :=
  ((sendsOf events).filter (fun send => decide (send.1 ≠ PacketType.DATA_PACKET))).length

/-- The current states of the two roles. -/
structure RoleStates where
  source : NodeState
  destination : NodeState
  deriving DecidableEq

/-- The current state of a role. -/
def RoleStates.stateOf (states : RoleStates) : Role → NodeState
  | Role.source => states.source
  | Role.destination => states.destination

/-- The states after a role has moved to a state. -/
def RoleStates.move (states : RoleStates) (role : Role) (to_ : NodeState) : RoleStates :=
  match role with
  | Role.source => { states with source := to_ }
  | Role.destination => { states with destination := to_ }

/-- The role named by the `sender` argument of a send. -/
def senderRole (sender : String) : Option Role :=
  if sender = "Source" then some Role.source
  else if sender = "Destination" then some Role.destination
  else none

/-- One event replayed on the states of the two roles. A transition is accepted only when
its `from_` is the current state of its role, and moves the role to `to_`; a send is
accepted only when its sender is in TRANSMIT; a hold changes nothing. -/
def replayStep (states : RoleStates) (event : Event) : Option RoleStates :=
  match event with
  | Event.transition role from_ to_ _ =>
      if states.stateOf role = from_ then some (states.move role to_) else none
  | Event.hold _ _ => some states
  | Event.send _ _ sender _ =>
      match senderRole sender with
      | some role =>
          if states.stateOf role = NodeState.STATE_TRANSMIT then some states else none
      | none => none

/-- The events replayed from both roles in IDLE: the states of the two roles at the end,
when every event is accepted. -/
def replay (events : List Event) : Option RoleStates :=
  events.foldlM replayStep ⟨NodeState.STATE_IDLE, NodeState.STATE_IDLE⟩

/-- The value of an enumerator of `PacketType` (lines 9-15). -/
def PacketType.value : PacketType → Int
  | PacketType.REV_PACKET => 1
  | PacketType.ACK_PACKET => 2
  | PacketType.DATA_PACKET => 3
  | PacketType.RTS_PACKET => 4
  | PacketType.CTS_PACKET => 5

/-- An event without energy accounting: a requested transition or a packet send, the packet
type given by the value of its enumerator. -/
inductive ErasedEvent where
  | transition (role : Role) (from_ to_ : NodeState) (reason : String)
  | send (typeValue : Int) (txCoil : Int) (sender receiver : String)
  deriving DecidableEq

/-- An event of a session of the comparison program with its energy accounting erased: a
hold charge disappears. -/
def Event.erased (event : Event) : Option ErasedEvent :=
  match event with
  | Event.transition role from_ to_ reason => some (ErasedEvent.transition role from_ to_ reason)
  | Event.hold _ _ => none
  | Event.send type txCoil sender receiver =>
      some (ErasedEvent.send type.value txCoil sender receiver)

end MiMac

/-! The standalone demo, `scratch/mi-mac-demo.cc`. Its enumerations `CoilID` and `NodeState`,
its tables `stateNames` and `coilNames` and its functions `CalculateRSSI` and `SelectBestCoil`
(lines 15-53) have the same text as those of the comparison program; its functions keep no
ledger. -/

namespace MiMacDemo

open MiMac

/-- The enumeration `PacketType` of the demo (lines 9-13). -/
inductive PacketType where
  | REV_PACKET
  | ACK_PACKET
  | DATA_PACKET
  deriving DecidableEq, Repr

/-- The value of an enumerator of the demo's `PacketType` (lines 9-13). -/
def PacketType.value : PacketType → Int
  | PacketType.REV_PACKET => 1
  | PacketType.ACK_PACKET => 2
  | PacketType.DATA_PACKET => 3

/-- The table `rssiValues` local to the demo's `CalculateRSSI` (line 34). -/
def rssiValues : List ℚ := [-45.5, -52.3, -48.7]

/-- The demo's `SelectBestCoil` (lines 38-53). -/
def SelectBestCoil : Option (Int × ℚ) :=
  SelectBestCoilFrom rssiValues

/-- A call of the demo's `StateTransition` (lines 55-58), which only prints: the event
recorded for it. -/
def StateTransition (role : Role) (from_ to_ : NodeState) (reason : String) : ErasedEvent :=
  ErasedEvent.transition role from_ to_ reason

/-- A call of the demo's `SendPacket` (lines 60-73), which only prints: the event recorded
for it. Line 64 reads `coilNames[txCoil]` without a test of `txCoil`. -/
def SendPacket (type : PacketType) (txCoil : Int) (sender receiver : String) :
    Option ErasedEvent := do
  let _ ← coilNameAt txCoil
  pure (ErasedEvent.send type.value txCoil sender receiver)

/-- What the demo's session leaves behind: the events in order, the final values of the local
variables `sourceState` and `destState`, and `bestCoil`. -/
structure Outcome where
  trace : List ErasedEvent
  sourceState : NodeState
  destState : NodeState
  bestCoil : Int
  deriving DecidableEq

/-- The demo's `SimulateMACProtocol` (lines 75-165), statement by statement; the number of
the source line is given before each group. -/
def SimulateMACProtocol : Option Outcome := do
  -- 82
  let trace : List ErasedEvent := []
  let sourceState := NodeState.STATE_IDLE
  -- 86-87
  let trace := trace ++ [StateTransition Role.source sourceState NodeState.STATE_DATA_ACQUIRE
    "Sensor interrupt"]
  let sourceState := NodeState.STATE_DATA_ACQUIRE
  -- 92-93
  let trace := trace ++ [StateTransition Role.source sourceState NodeState.STATE_CHANNEL_SENSING
    "Data ready"]
  let sourceState := NodeState.STATE_CHANNEL_SENSING
  -- 98-99
  let trace := trace ++ [StateTransition Role.source sourceState NodeState.STATE_TRANSMIT
    "Channel clear"]
  let sourceState := NodeState.STATE_TRANSMIT
  -- 102-105: for (int coil = 0; coil < 3; coil++)
  let trace ← [(0 : Int), 1, 2].foldlM
    (fun trace coil => do
      let event ← SendPacket PacketType.REV_PACKET coil "Source" "Destination"
      pure (trace ++ [event])) trace
  -- 107-108
  let trace := trace ++ [StateTransition Role.source sourceState NodeState.STATE_RECEIVE
    "Waiting for ACK"]
  let sourceState := NodeState.STATE_RECEIVE
  -- 111-115
  let destState := NodeState.STATE_IDLE
  let trace := trace ++ [StateTransition Role.destination destState NodeState.STATE_RECEIVE
    "Packet received with correct ID"]
  let destState := NodeState.STATE_RECEIVE
  -- 117
  let (bestCoil, _) ← SelectBestCoil
  -- 120-121
  let trace := trace ++ [StateTransition Role.destination destState
    NodeState.STATE_CHANNEL_SENSING "REV received, sending ACK"]
  let destState := NodeState.STATE_CHANNEL_SENSING
  -- 124-125
  let trace := trace ++ [StateTransition Role.destination destState NodeState.STATE_TRANSMIT
    "Channel clear"]
  let destState := NodeState.STATE_TRANSMIT
  -- 127
  let event ← SendPacket PacketType.ACK_PACKET bestCoil "Destination" "Source"
  let trace := trace ++ [event]
  -- 129-130
  let trace := trace ++ [StateTransition Role.destination destState NodeState.STATE_RECEIVE
    "Waiting for data"]
  let destState := NodeState.STATE_RECEIVE
  -- 133: coilNames[bestCoil]
  let _ ← coilNameAt bestCoil
  -- 136-137
  let trace := trace ++ [StateTransition Role.source sourceState NodeState.STATE_CHANNEL_SENSING
    "Ready to send data"]
  let sourceState := NodeState.STATE_CHANNEL_SENSING
  -- 140-141
  let trace := trace ++ [StateTransition Role.source sourceState NodeState.STATE_TRANSMIT
    "Channel clear"]
  let sourceState := NodeState.STATE_TRANSMIT
  -- 143
  let event ← SendPacket PacketType.DATA_PACKET bestCoil "Source" "Destination"
  let trace := trace ++ [event]
  -- 145-146
  let trace := trace ++ [StateTransition Role.source sourceState NodeState.STATE_IDLE
    "Transmission complete"]
  let sourceState := NodeState.STATE_IDLE
  -- 152-153
  let trace := trace ++ [StateTransition Role.destination destState NodeState.STATE_IDLE
    "Data received completely"]
  let destState := NodeState.STATE_IDLE
  -- 160: coilNames[bestCoil]
  let _ ← coilNameAt bestCoil
  pure { trace := trace, sourceState := sourceState, destState := destState,
         bestCoil := bestCoil }

end MiMacDemo

namespace MiMac

/-! Auxiliary facts -/

theorem selectBestCoilFrom_fixed : SelectBestCoilFrom rssiValues = some (0, -45.5) := by
  simp [SelectBestCoilFrom, selectBody, CalculateRSSIFrom, rssiValues,
    coilNameAt, coilNames, List.foldlM]
  norm_num

theorem miMac_events :
    ∃ o, SimulateMultiCoilMIMACProtocol = some o ∧
      o.events =
        [Event.transition Role.source NodeState.STATE_IDLE NodeState.STATE_DATA_ACQUIRE
           "Sensor interrupt",
         Event.hold NodeState.STATE_DATA_ACQUIRE 10,
         Event.transition Role.source NodeState.STATE_DATA_ACQUIRE
           NodeState.STATE_CHANNEL_SENSING "Data ready",
         Event.hold NodeState.STATE_CHANNEL_SENSING 5,
         Event.transition Role.source NodeState.STATE_CHANNEL_SENSING NodeState.STATE_TRANSMIT
           "Channel clear",
         Event.send PacketType.REV_PACKET 0 "Source" "Destination",
         Event.send PacketType.REV_PACKET 1 "Source" "Destination",
         Event.send PacketType.REV_PACKET 2 "Source" "Destination",
         Event.transition Role.source NodeState.STATE_TRANSMIT NodeState.STATE_RECEIVE
           "Waiting for ACK",
         Event.hold NodeState.STATE_RECEIVE 5,
         Event.transition Role.destination NodeState.STATE_IDLE NodeState.STATE_RECEIVE
           "Packet received with correct ID",
         Event.hold NodeState.STATE_RECEIVE 15,
         Event.transition Role.destination NodeState.STATE_RECEIVE
           NodeState.STATE_CHANNEL_SENSING "REV received, sending ACK",
         Event.hold NodeState.STATE_CHANNEL_SENSING 3,
         Event.transition Role.destination NodeState.STATE_CHANNEL_SENSING
           NodeState.STATE_TRANSMIT "Channel clear",
         Event.send PacketType.ACK_PACKET 0 "Destination" "Source",
         Event.transition Role.destination NodeState.STATE_TRANSMIT NodeState.STATE_RECEIVE
           "Waiting for data",
         Event.transition Role.source NodeState.STATE_RECEIVE NodeState.STATE_CHANNEL_SENSING
           "Ready to send data",
         Event.hold NodeState.STATE_CHANNEL_SENSING 3,
         Event.transition Role.source NodeState.STATE_CHANNEL_SENSING NodeState.STATE_TRANSMIT
           "Channel clear",
         Event.send PacketType.DATA_PACKET 0 "Source" "Destination",
         Event.transition Role.source NodeState.STATE_TRANSMIT NodeState.STATE_IDLE
           "Transmission complete",
         Event.hold NodeState.STATE_RECEIVE 10,
         Event.transition Role.destination NodeState.STATE_RECEIVE NodeState.STATE_IDLE
           "Data received completely"] ∧
      o.sourceState = NodeState.STATE_IDLE ∧ o.destState = NodeState.STATE_IDLE ∧
      o.bestCoil = some 0 := by
  simp [SimulateMultiCoilMIMACProtocol, SimulateMultiCoilMIMACProtocolFrom,
    selectBestCoilFrom_fixed, Run.send, Run.transition,
    Run.hold, SendPacketCoilLine, coilNameAt, coilNames, SendPacket, StateTransition,
    intIncrement, wrapInt,
    chargeHold, currentDraw, List.foldlM, Outcome.events]

theorem csmaCa_events :
    ∃ o, SimulateTraditionalCSMACA = some o ∧
      o.events =
        [Event.transition Role.source NodeState.STATE_IDLE NodeState.STATE_DATA_ACQUIRE
           "Data collection",
         Event.hold NodeState.STATE_DATA_ACQUIRE 10,
         Event.transition Role.source NodeState.STATE_DATA_ACQUIRE
           NodeState.STATE_CHANNEL_SENSING "Data ready",
         Event.hold NodeState.STATE_CHANNEL_SENSING 8,
         Event.transition Role.source NodeState.STATE_CHANNEL_SENSING NodeState.STATE_TRANSMIT
           "Channel clear",
         Event.send PacketType.RTS_PACKET (-1) "Source" "Destination",
         Event.transition Role.source NodeState.STATE_TRANSMIT NodeState.STATE_RECEIVE
           "Waiting for CTS",
         Event.hold NodeState.STATE_RECEIVE 8,
         Event.transition Role.destination NodeState.STATE_IDLE NodeState.STATE_RECEIVE
           "Packet received",
         Event.hold NodeState.STATE_RECEIVE 20,
         Event.transition Role.destination NodeState.STATE_RECEIVE
           NodeState.STATE_CHANNEL_SENSING "RTS received, sending CTS",
         Event.hold NodeState.STATE_CHANNEL_SENSING 5,
         Event.transition Role.destination NodeState.STATE_CHANNEL_SENSING
           NodeState.STATE_TRANSMIT "Channel clear",
         Event.send PacketType.CTS_PACKET (-1) "Destination" "Source",
         Event.transition Role.destination NodeState.STATE_TRANSMIT NodeState.STATE_RECEIVE
           "Waiting for data",
         Event.transition Role.source NodeState.STATE_RECEIVE NodeState.STATE_TRANSMIT
           "Ready to send data",
         Event.send PacketType.DATA_PACKET (-1) "Source" "Destination",
         Event.transition Role.source NodeState.STATE_TRANSMIT NodeState.STATE_RECEIVE
           "Waiting for ACK",
         Event.hold NodeState.STATE_RECEIVE 5,
         Event.hold NodeState.STATE_RECEIVE 10,
         Event.transition Role.destination NodeState.STATE_RECEIVE NodeState.STATE_TRANSMIT
           "Sending ACK",
         Event.send PacketType.ACK_PACKET (-1) "Destination" "Source",
         Event.transition Role.destination NodeState.STATE_TRANSMIT NodeState.STATE_IDLE
           "Transmission complete",
         Event.transition Role.source NodeState.STATE_RECEIVE NodeState.STATE_IDLE
           "Communication complete"] ∧
      o.sourceState = NodeState.STATE_IDLE ∧ o.destState = NodeState.STATE_IDLE ∧
      o.energy.stateTransitions = 13 := by
  simp [SimulateTraditionalCSMACA, Run.send, Run.transition,
    Run.hold, SendPacketCoilLine, coilNameAt, coilNames, SendPacket, StateTransition,
    intIncrement, wrapInt,
    chargeHold, currentDraw, Outcome.events]

theorem selectBestCoilFrom_three (x y z : ℚ) :
    ∃ c m, SelectBestCoilFrom [x, y, z] = some (c, m) ∧ (c = 0 ∨ c = 1 ∨ c = 2) := by
  simp only [SelectBestCoilFrom, selectBody, CalculateRSSIFrom, coilNameAt, coilNames,
    List.foldlM]
  by_cases h0 : -1000 < x
  · by_cases h1 : x < y
    · by_cases h2 : y < z <;> simp [h0, h1, h2]
    · by_cases h2 : x < z <;> simp [h0, h1, h2]
  · by_cases h1 : -1000 < y
    · by_cases h2 : y < z <;> simp [h0, h1, h2]
    · by_cases h2 : -1000 < z <;> simp [h0, h1, h2]

theorem miMacFrom_sends (table : List ℚ) (c : Int) (m : ℚ)
    (hsel : SelectBestCoilFrom table = some (c, m)) (hc : c = 0 ∨ c = 1 ∨ c = 2) :
    ∃ o, SimulateMultiCoilMIMACProtocolFrom table = some o ∧ o.bestCoil = some c ∧
      sendsOf o.events =
        [(PacketType.REV_PACKET, 0, "Source", "Destination"),
         (PacketType.REV_PACKET, 1, "Source", "Destination"),
         (PacketType.REV_PACKET, 2, "Source", "Destination"),
         (PacketType.ACK_PACKET, c, "Destination", "Source"),
         (PacketType.DATA_PACKET, c, "Source", "Destination")] := by
  rcases hc with rfl | rfl | rfl <;>
    simp [SimulateMultiCoilMIMACProtocolFrom, hsel, Run.send, Run.transition,
      Run.hold, SendPacketCoilLine, coilNameAt, coilNames, SendPacket, StateTransition,
      intIncrement, wrapInt,
      chargeHold, currentDraw, List.foldlM, Outcome.events, sendsOf]

theorem intIncrement_of_lt (x : Int) (hlo : -2147483648 ≤ x) (hhi : x < 2147483647) :
    intIncrement x = x + 1 := by
  unfold intIncrement wrapInt
  rw [Int.emod_eq_of_lt (by linarith) (by linarith)]
  ring

/-! The claims -/

/-- C1: the MI-MAC session returns a ledger with `packetsSent = 5`, and its trace holds
exactly 3 REV, 1 ACK and 1 DATA send (no RTS, no CTS); the CSMA/CA session returns a ledger
with `packetsSent = 4`, and its trace holds exactly one send each of RTS, CTS, DATA and ACK
(no REV). -/
theorem C1_packets_sent :
    (∃ o, SimulateMultiCoilMIMACProtocol = some o ∧ o.energy.packetsSent = 5 ∧
      sendCount PacketType.REV_PACKET o.trace = 3 ∧
      sendCount PacketType.ACK_PACKET o.trace = 1 ∧
      sendCount PacketType.DATA_PACKET o.trace = 1 ∧
      sendCount PacketType.RTS_PACKET o.trace = 0 ∧
      sendCount PacketType.CTS_PACKET o.trace = 0) ∧
    (∃ o, SimulateTraditionalCSMACA = some o ∧ o.energy.packetsSent = 4 ∧
      sendCount PacketType.RTS_PACKET o.trace = 1 ∧
      sendCount PacketType.CTS_PACKET o.trace = 1 ∧
      sendCount PacketType.DATA_PACKET o.trace = 1 ∧
      sendCount PacketType.ACK_PACKET o.trace = 1 ∧
      sendCount PacketType.REV_PACKET o.trace = 0) := by
  constructor
  · simp [SimulateMultiCoilMIMACProtocol, SimulateMultiCoilMIMACProtocolFrom,
    selectBestCoilFrom_fixed, Run.send, Run.transition,
      Run.hold, SendPacketCoilLine, coilNameAt, coilNames, SendPacket, StateTransition,
      intIncrement, wrapInt,
      chargeHold, currentDraw, sendCount, List.foldlM]
  · simp [SimulateTraditionalCSMACA, Run.send, Run.transition,
      Run.hold, SendPacketCoilLine, coilNameAt, coilNames, SendPacket, StateTransition,
      intIncrement, wrapInt,
      chargeHold, currentDraw, sendCount]

/-- C2 (as stated, refuted): the ledger returned by the MI-MAC session does not have
`stateTransitions = 9`. -/
theorem C2_not_nine :
    SimulateMultiCoilMIMACProtocol.map (fun o => o.energy.stateTransitions) ≠ some 9 := by
  simp [SimulateMultiCoilMIMACProtocol, SimulateMultiCoilMIMACProtocolFrom,
    selectBestCoilFrom_fixed, Run.send, Run.transition,
    Run.hold, SendPacketCoilLine, coilNameAt, coilNames, SendPacket, StateTransition,
    intIncrement, wrapInt,
    chargeHold, currentDraw, List.foldlM]

/-- C2 (amended): the ledger returned by the MI-MAC session has `stateTransitions = 12`, the
number of `StateTransition` calls of the session: 7 for the source and 5 for the
destination. -/
theorem C2_state_transitions_twelve :
    ∃ o, SimulateMultiCoilMIMACProtocol = some o ∧ o.energy.stateTransitions = 12 ∧
      transitionCount Role.source o.trace = 7 ∧
      transitionCount Role.destination o.trace = 5 := by
  simp [SimulateMultiCoilMIMACProtocol, SimulateMultiCoilMIMACProtocolFrom,
    selectBestCoilFrom_fixed, Run.send, Run.transition,
    Run.hold, SendPacketCoilLine, coilNameAt, coilNames, SendPacket, StateTransition,
    intIncrement, wrapInt,
    chargeHold, currentDraw, transitionCount, List.foldlM]

/-- C3: for every ledger, packet type, coil, sender and receiver, `SendPacket` adds exactly
`bytes * 8 * transmitCurrent * 0.001` to `totalEnergy`, with `bytes` 13 for REV, 5 for ACK
and CTS, 10 for DATA and 20 for RTS; the amount mentions neither the coil nor the sender nor
the receiver. -/
theorem C3_send_energy (energy : EnergyMetrics) (type : PacketType) (txCoil : Int)
    (sender receiver : String) :
    (SendPacket type txCoil sender receiver energy).totalEnergy =
      energy.totalEnergy +
        (match type with
          | PacketType.REV_PACKET => 13
          | PacketType.ACK_PACKET => 5
          | PacketType.CTS_PACKET => 5
          | PacketType.DATA_PACKET => 10
          | PacketType.RTS_PACKET => 20) * 8 * energy.transmitCurrent * 0.001 := by
  cases type <;> simp [SendPacket]

/-- C4 (as stated, refuted): in the MI-MAC session the second step is the source's
DataAcquire hold of 10 units; it takes `totalEnergy` from 0 to 2500, which is not
`0 + 250 * 10 * 0.001`. -/
theorem C4_hold_not_scaled :
    ∃ o prev step, SimulateMultiCoilMIMACProtocol = some o ∧
      o.trace.get? 0 = some prev ∧ o.trace.get? 1 = some step ∧
      step.event = Event.hold NodeState.STATE_DATA_ACQUIRE 10 ∧
      prev.after.totalEnergy = 0 ∧ step.after.totalEnergy = 2500 ∧
      step.after.totalEnergy ≠
        prev.after.totalEnergy +
          currentDraw prev.after NodeState.STATE_DATA_ACQUIRE * 10 * 0.001 := by
  simp [SimulateMultiCoilMIMACProtocol, SimulateMultiCoilMIMACProtocolFrom,
    selectBestCoilFrom_fixed, Run.send, Run.transition,
    Run.hold, SendPacketCoilLine, coilNameAt, coilNames, SendPacket, StateTransition,
    intIncrement, wrapInt,
    chargeHold, currentDraw, List.foldlM]
  norm_num

/-- C4 (amended): in both sessions every hold charge adds `currentDraw state * unitsHeld` to
`totalEnergy`, without the 0.001 scale of the packet sends: each hold step's `totalEnergy`
is the previous step's plus the state's current times the units. Each session makes 7 such
charges, and the source's DataAcquire hold of 10 units adds `250 * 10 = 2500`. -/
theorem C4_hold_charges_unscaled :
    (∃ o, SimulateMultiCoilMIMACProtocol = some o ∧ List.Chain' holdDelta o.trace ∧
      (o.trace.filter (fun step => step.event matches Event.hold _ _)).length = 7 ∧
      o.trace.get? 1 =
        some ⟨Event.hold NodeState.STATE_DATA_ACQUIRE 10,
          { totalEnergy := 2500, stateTransitions := 1 }⟩) ∧
    (∃ o, SimulateTraditionalCSMACA = some o ∧ List.Chain' holdDelta o.trace ∧
      (o.trace.filter (fun step => step.event matches Event.hold _ _)).length = 7 ∧
      o.trace.get? 1 =
        some ⟨Event.hold NodeState.STATE_DATA_ACQUIRE 10,
          { totalEnergy := 2500, stateTransitions := 1 }⟩) := by
  constructor
  · simp [SimulateMultiCoilMIMACProtocol, SimulateMultiCoilMIMACProtocolFrom,
    selectBestCoilFrom_fixed, Run.send, Run.transition,
      Run.hold, SendPacketCoilLine, coilNameAt, coilNames, SendPacket, StateTransition,
      intIncrement, wrapInt,
      chargeHold, currentDraw, List.foldlM, holdDelta]
    norm_num
  · simp [SimulateTraditionalCSMACA, Run.send, Run.transition,
      Run.hold, SendPacketCoilLine, coilNameAt, coilNames, SendPacket, StateTransition,
      intIncrement, wrapInt,
      chargeHold, currentDraw, holdDelta]
    norm_num

/-- C5: with the constants of the program the MI-MAC session's `totalEnergy` is strictly
below the CSMA/CA session's, and the energy saving that `CompareProtocols` computes from the
two returned ledgers (the one `main` prints) is the finite number
`(csmaCa.totalEnergy - miMac.totalEnergy) / csmaCa.totalEnergy * 100`, which is strictly
positive. -/
theorem C5_saving_positive :
    ∃ mi cs q, SimulateMultiCoilMIMACProtocol = some mi ∧ SimulateTraditionalCSMACA = some cs ∧
      mi.energy.totalEnergy < cs.energy.totalEnergy ∧
      CompareProtocols mi.energy cs.energy = DoubleValue.finite q ∧
      mainComparison = some (DoubleValue.finite q) ∧
      q = (cs.energy.totalEnergy - mi.energy.totalEnergy) / cs.energy.totalEnergy * 100 ∧
      0 < q := by
  simp [mainComparison, SimulateMultiCoilMIMACProtocol, SimulateMultiCoilMIMACProtocolFrom,
    SimulateTraditionalCSMACA, selectBestCoilFrom_fixed, Run.send, Run.transition,
    Run.hold, SendPacketCoilLine, coilNameAt, coilNames, SendPacket, StateTransition,
    intIncrement, wrapInt,
    chargeHold, currentDraw, List.foldlM, CompareProtocols, DoubleValue.div, DoubleValue.scale]
  norm_num

/-- C6 (as stated, refuted): with the readings X = -2000, Y = -1500, Z = -3000, none above the
initial running maximum of -1000, `SelectBestCoil` returns coil X and reports -1000, although
coil Y has a strictly greater reading than coil X and -1000 is not the reading of coil X. -/
theorem C6_all_readings_below_start :
    SelectBestCoilFrom [-2000, -1500, -3000] = some (0, -1000) ∧
      CalculateRSSIFrom [-2000, -1500, -3000] 0 = some (-2000) ∧
      CalculateRSSIFrom [-2000, -1500, -3000] 1 = some (-1500) ∧
      (-2000 : ℚ) < -1500 ∧ (-1000 : ℚ) ≠ -2000 := by
  simp [SelectBestCoilFrom, selectBody, CalculateRSSIFrom, coilNameAt, coilNames, List.foldlM]
  norm_num

/-- C6 (amended): for every assignment of readings to the three coils in which at least one
reading is above -1000, the initial running maximum, `SelectBestCoil` returns a coil `c` of
the three and reports that coil's own reading; no coil has a strictly greater reading, and
no coil earlier in scan order has an equal one. -/
theorem C6_first_maximum (r : Fin 3 → ℚ) (h : ∃ j, -1000 < r j) :
    ∃ c : Fin 3, SelectBestCoilFrom [r 0, r 1, r 2] = some (((c : Nat) : Int), r c) ∧
      (∀ j, r j ≤ r c) ∧ (∀ j, j < c → r j ≠ r c) := by
  have hx : -1000 < r 0 ∨ -1000 < r 1 ∨ -1000 < r 2 := by
    obtain ⟨j, hj⟩ := h
    fin_cases j
    · exact Or.inl hj
    · exact Or.inr (Or.inl hj)
    · exact Or.inr (Or.inr hj)
  simp only [SelectBestCoilFrom, selectBody, CalculateRSSIFrom, coilNameAt, coilNames,
    List.foldlM]
  by_cases h0 : -1000 < r 0
  · by_cases h1 : r 0 < r 1
    · by_cases h2 : r 1 < r 2
      · refine ⟨2, ?_, ?_, ?_⟩
        · simp [h0, h1, h2]
        · intro j; fin_cases j <;> simp <;> linarith
        · intro j hj; fin_cases j <;> simp at hj ⊢ <;> linarith
      · refine ⟨1, ?_, ?_, ?_⟩
        · simp [h0, h1, h2]
        · intro j; fin_cases j <;> simp <;> linarith
        · intro j hj; fin_cases j <;> simp at hj ⊢; linarith
    · by_cases h2 : r 0 < r 2
      · refine ⟨2, ?_, ?_, ?_⟩
        · simp [h0, h1, h2]
        · intro j; fin_cases j <;> simp <;> linarith
        · intro j hj; fin_cases j <;> simp at hj ⊢ <;> linarith
      · refine ⟨0, ?_, ?_, ?_⟩
        · simp [h0, h1, h2]
        · intro j; fin_cases j <;> simp <;> linarith
        · intro j hj; fin_cases j <;> simp at hj ⊢
  · by_cases h1 : -1000 < r 1
    · by_cases h2 : r 1 < r 2
      · refine ⟨2, ?_, ?_, ?_⟩
        · simp [h0, h1, h2]
        · intro j; fin_cases j <;> simp <;> linarith
        · intro j hj; fin_cases j <;> simp at hj ⊢ <;> linarith
      · refine ⟨1, ?_, ?_, ?_⟩
        · simp [h0, h1, h2]
        · intro j; fin_cases j <;> simp <;> linarith
        · intro j hj; fin_cases j <;> simp at hj ⊢; linarith
    · have h2 : -1000 < r 2 := by
        rcases hx with hx | hx | hx
        · exact absurd hx h0
        · exact absurd hx h1
        · exact hx
      refine ⟨2, ?_, ?_, ?_⟩
      · simp [h0, h1, h2]
      · intro j; fin_cases j <;> simp <;> linarith
      · intro j hj; fin_cases j <;> simp at hj ⊢ <;> linarith

/-- C6 (amended), at the readings X = -50, Y = -40, Z = -40: coil Y is selected. -/
theorem C6_first_maximum_witness :
    (∃ j, -1000 < tiedReadings j) ∧
      ∃ c : Fin 3,
        SelectBestCoilFrom [tiedReadings 0, tiedReadings 1, tiedReadings 2] =
            some (((c : Nat) : Int), tiedReadings c) ∧
        (∀ j, tiedReadings j ≤ tiedReadings c) ∧
        (∀ j, j < c → tiedReadings j ≠ tiedReadings c) :=
  ⟨⟨0, by norm_num [tiedReadings]⟩, C6_first_maximum tiedReadings ⟨0, by norm_num [tiedReadings]⟩⟩

/-- C7 (as stated, refuted): requested from Idle to Transmit on a fresh ledger,
`StateTransition` returns a ledger whose `stateTransitions` is 1, not the 0 it was. -/
theorem C7_idle_to_transmit_counted :
    (StateTransition NodeState.STATE_IDLE NodeState.STATE_TRANSMIT "Channel clear"
        {}).stateTransitions = 1 ∧
      (StateTransition NodeState.STATE_IDLE NodeState.STATE_TRANSMIT "Channel clear"
        {}).stateTransitions ≠ ({} : EnergyMetrics).stateTransitions := by
  simp [StateTransition, intIncrement, wrapInt]

/-- C7 (amended): `StateTransition` does not compare `from_` with any transition graph and
has no failing path: for every ledger whose `stateTransitions` is an `int` below 2147483647
and every pair of states, whether or not `from_` is the expected predecessor of `to_`, it
returns the ledger with `stateTransitions` increased by 1 and `packetsSent` and
`totalEnergy` unchanged, the same ledger as for any other pair of states. -/
theorem C7_transition_unchecked (from_ to_ : NodeState) (reason : String)
    (energy : EnergyMetrics) (hlo : -2147483648 ≤ energy.stateTransitions)
    (hhi : energy.stateTransitions < 2147483647) :
    (StateTransition from_ to_ reason energy).stateTransitions = energy.stateTransitions + 1 ∧
      (StateTransition from_ to_ reason energy).packetsSent = energy.packetsSent ∧
      (StateTransition from_ to_ reason energy).totalEnergy = energy.totalEnergy ∧
      StateTransition from_ to_ reason energy =
        StateTransition NodeState.STATE_IDLE NodeState.STATE_IDLE "" energy := by
  simp [StateTransition, intIncrement_of_lt _ hlo hhi]

/-- C7 (amended), at the request from Idle to Transmit on a fresh ledger. -/
theorem C7_transition_unchecked_witness :
    (-2147483648 ≤ ({} : EnergyMetrics).stateTransitions ∧
      ({} : EnergyMetrics).stateTransitions < 2147483647) ∧
    ((StateTransition NodeState.STATE_IDLE NodeState.STATE_TRANSMIT "Channel clear"
        {}).stateTransitions = ({} : EnergyMetrics).stateTransitions + 1 ∧
      (StateTransition NodeState.STATE_IDLE NodeState.STATE_TRANSMIT "Channel clear"
        {}).packetsSent = ({} : EnergyMetrics).packetsSent ∧
      (StateTransition NodeState.STATE_IDLE NodeState.STATE_TRANSMIT "Channel clear"
        {}).totalEnergy = ({} : EnergyMetrics).totalEnergy ∧
      StateTransition NodeState.STATE_IDLE NodeState.STATE_TRANSMIT "Channel clear" {} =
        StateTransition NodeState.STATE_IDLE NodeState.STATE_IDLE "" {}) :=
  ⟨⟨by decide, by decide⟩,
    C7_transition_unchecked NodeState.STATE_IDLE NodeState.STATE_TRANSMIT "Channel clear" {}
      (by decide) (by decide)⟩

/-- C8 (as stated, refuted): with a fresh ledger (`totalEnergy = 0`) as the baseline,
`CompareProtocols` yields an infinite saving for a first ledger with `totalEnergy = 1` and
NaN for a first ledger that is fresh too. -/
theorem C8_zero_baseline_not_guarded :
    ({} : EnergyMetrics).totalEnergy = 0 ∧
      CompareProtocols { totalEnergy := 1 } {} = DoubleValue.infinite ∧
      CompareProtocols {} {} = DoubleValue.nan := by
  norm_num [CompareProtocols, DoubleValue.div, DoubleValue.scale]

/-- C8 (amended): `CompareProtocols` has no guard on the baseline. For every pair of ledgers
whose baseline (second) ledger has `totalEnergy = 0` the division is evaluated all the same,
and the saving is NaN when the first ledger's `totalEnergy` is 0 too and infinite
otherwise. -/
theorem C8_zero_baseline_value (miMac csmaCa : EnergyMetrics) (h : csmaCa.totalEnergy = 0) :
    CompareProtocols miMac csmaCa =
      if miMac.totalEnergy = 0 then DoubleValue.nan else DoubleValue.infinite := by
  by_cases hm : miMac.totalEnergy = 0 <;>
    simp [CompareProtocols, DoubleValue.div, DoubleValue.scale, h, hm]

/-- C8 (amended), at the first ledger with `totalEnergy = 1` and a fresh baseline. -/
theorem C8_zero_baseline_value_witness :
    ({} : EnergyMetrics).totalEnergy = 0 ∧
      CompareProtocols { totalEnergy := 1 } {} =
        if ({ totalEnergy := 1 } : EnergyMetrics).totalEnergy = 0 then DoubleValue.nan
        else DoubleValue.infinite :=
  ⟨by norm_num, C8_zero_baseline_value { totalEnergy := 1 } {} (by norm_num)⟩

/-- C9: for every ledger with non-zero `totalEnergy`, `CompareProtocols` applied to the
ledger and itself yields a saving of exactly 0. -/
theorem C9_self_comparison (a : EnergyMetrics) (h : a.totalEnergy ≠ 0) :
    CompareProtocols a a = DoubleValue.finite 0 := by
  simp [CompareProtocols, DoubleValue.div, DoubleValue.scale, h]

/-- C9, at a ledger with `totalEnergy = 5`. -/
theorem C9_self_comparison_witness :
    ({ totalEnergy := 5 } : EnergyMetrics).totalEnergy ≠ 0 ∧
      CompareProtocols { totalEnergy := 5 } { totalEnergy := 5 } = DoubleValue.finite 0 :=
  ⟨by norm_num, C9_self_comparison { totalEnergy := 5 } (by norm_num)⟩

/-- C10 (as stated, refuted): on a ledger whose `packetsSent` is 2147483647, the largest
`int`, `SendPacket` leaves `packetsSent` at -2147483648, not at 2147483647 + 1; on a ledger
whose `stateTransitions` is 2147483647, `StateTransition` leaves `stateTransitions` at
-2147483648. -/
theorem C10_counters_wrap_at_int_max :
    (SendPacket PacketType.REV_PACKET 0 "Source" "Destination"
        { packetsSent := 2147483647 }).packetsSent = -2147483648 ∧
      (SendPacket PacketType.REV_PACKET 0 "Source" "Destination"
        { packetsSent := 2147483647 }).packetsSent ≠ 2147483647 + 1 ∧
      (StateTransition NodeState.STATE_IDLE NodeState.STATE_DATA_ACQUIRE "Sensor interrupt"
        { stateTransitions := 2147483647 }).stateTransitions = -2147483648 ∧
      (StateTransition NodeState.STATE_IDLE NodeState.STATE_DATA_ACQUIRE "Sensor interrupt"
        { stateTransitions := 2147483647 }).stateTransitions ≠ 2147483647 + 1 := by
  simp [SendPacket, StateTransition, intIncrement, wrapInt]

/-- C10 (amended): for every ledger and all arguments, `SendPacket` increases `packetsSent`
by exactly 1 when `packetsSent` is an `int` below 2147483647, and leaves `stateTransitions`
unchanged; `StateTransition` increases `stateTransitions` by exactly 1 when
`stateTransitions` is an `int` below 2147483647, and leaves `packetsSent` and `totalEnergy`
unchanged; neither changes any of the five per-state current members. -/
theorem C10_counters_and_frame (energy : EnergyMetrics) (type : PacketType) (txCoil : Int)
    (sender receiver : String) (from_ to_ : NodeState) (reason : String) :
    ((-2147483648 ≤ energy.packetsSent ∧ energy.packetsSent < 2147483647 →
        (SendPacket type txCoil sender receiver energy).packetsSent =
          energy.packetsSent + 1) ∧
      (SendPacket type txCoil sender receiver energy).stateTransitions =
        energy.stateTransitions ∧
      (SendPacket type txCoil sender receiver energy).idleCurrent = energy.idleCurrent ∧
      (SendPacket type txCoil sender receiver energy).receiveCurrent = energy.receiveCurrent ∧
      (SendPacket type txCoil sender receiver energy).dataAcquireCurrent =
        energy.dataAcquireCurrent ∧
      (SendPacket type txCoil sender receiver energy).channelSensingCurrent =
        energy.channelSensingCurrent ∧
      (SendPacket type txCoil sender receiver energy).transmitCurrent =
        energy.transmitCurrent) ∧
    ((-2147483648 ≤ energy.stateTransitions ∧ energy.stateTransitions < 2147483647 →
        (StateTransition from_ to_ reason energy).stateTransitions =
          energy.stateTransitions + 1) ∧
      (StateTransition from_ to_ reason energy).packetsSent = energy.packetsSent ∧
      (StateTransition from_ to_ reason energy).totalEnergy = energy.totalEnergy ∧
      (StateTransition from_ to_ reason energy).idleCurrent = energy.idleCurrent ∧
      (StateTransition from_ to_ reason energy).receiveCurrent = energy.receiveCurrent ∧
      (StateTransition from_ to_ reason energy).dataAcquireCurrent =
        energy.dataAcquireCurrent ∧
      (StateTransition from_ to_ reason energy).channelSensingCurrent =
        energy.channelSensingCurrent ∧
      (StateTransition from_ to_ reason energy).transmitCurrent = energy.transmitCurrent) := by
  refine ⟨⟨?_, ?_⟩, ⟨?_, ?_⟩⟩
  · intro h
    cases type <;> simp [SendPacket, intIncrement_of_lt _ h.1 h.2]
  · cases type <;> simp [SendPacket]
  · intro h
    simp [StateTransition, intIncrement_of_lt _ h.1 h.2]
  · simp [StateTransition]

/-- C10 (amended), at a REV send and at the transition from Idle to DataAcquire on a fresh
ledger, whose counters are 0. -/
theorem C10_counters_and_frame_witness :
    ((-2147483648 ≤ ({} : EnergyMetrics).packetsSent ∧
        ({} : EnergyMetrics).packetsSent < 2147483647) ∧
      (SendPacket PacketType.REV_PACKET 0 "Source" "Destination" {}).packetsSent =
        ({} : EnergyMetrics).packetsSent + 1) ∧
    ((-2147483648 ≤ ({} : EnergyMetrics).stateTransitions ∧
        ({} : EnergyMetrics).stateTransitions < 2147483647) ∧
      (StateTransition NodeState.STATE_IDLE NodeState.STATE_DATA_ACQUIRE "Sensor interrupt"
        {}).stateTransitions = ({} : EnergyMetrics).stateTransitions + 1) :=
  ⟨⟨⟨by decide, by decide⟩,
      (C10_counters_and_frame {} PacketType.REV_PACKET 0 "Source" "Destination"
        NodeState.STATE_IDLE NodeState.STATE_DATA_ACQUIRE "Sensor interrupt").1.1
        ⟨by decide, by decide⟩⟩,
    ⟨⟨by decide, by decide⟩,
      (C10_counters_and_frame {} PacketType.REV_PACKET 0 "Source" "Destination"
        NodeState.STATE_IDLE NodeState.STATE_DATA_ACQUIRE "Sensor interrupt").2.1
        ⟨by decide, by decide⟩⟩⟩

/-- C11: in the MI-MAC session the transitions requested for the source are, in order,
Idle, DataAcquire, ChannelSensing, Transmit, Receive, ChannelSensing, Transmit, Idle and
those requested for the destination Idle, Receive, ChannelSensing, Transmit, Receive, Idle;
replayed from both roles in Idle, every transition is requested from the current state of
its role and every send is made while its sender is in Transmit (the sends being three REV
by the source, one ACK by the destination, one DATA by the source); both roles end in
Idle. -/
theorem C11_mimac_paths :
    ∃ o, SimulateMultiCoilMIMACProtocol = some o ∧
      transitionsOf Role.source o.events =
        [(NodeState.STATE_IDLE, NodeState.STATE_DATA_ACQUIRE),
         (NodeState.STATE_DATA_ACQUIRE, NodeState.STATE_CHANNEL_SENSING),
         (NodeState.STATE_CHANNEL_SENSING, NodeState.STATE_TRANSMIT),
         (NodeState.STATE_TRANSMIT, NodeState.STATE_RECEIVE),
         (NodeState.STATE_RECEIVE, NodeState.STATE_CHANNEL_SENSING),
         (NodeState.STATE_CHANNEL_SENSING, NodeState.STATE_TRANSMIT),
         (NodeState.STATE_TRANSMIT, NodeState.STATE_IDLE)] ∧
      transitionsOf Role.destination o.events =
        [(NodeState.STATE_IDLE, NodeState.STATE_RECEIVE),
         (NodeState.STATE_RECEIVE, NodeState.STATE_CHANNEL_SENSING),
         (NodeState.STATE_CHANNEL_SENSING, NodeState.STATE_TRANSMIT),
         (NodeState.STATE_TRANSMIT, NodeState.STATE_RECEIVE),
         (NodeState.STATE_RECEIVE, NodeState.STATE_IDLE)] ∧
      (sendsOf o.events).map (fun send => (send.1, send.2.2.1)) =
        [(PacketType.REV_PACKET, "Source"), (PacketType.REV_PACKET, "Source"),
         (PacketType.REV_PACKET, "Source"), (PacketType.ACK_PACKET, "Destination"),
         (PacketType.DATA_PACKET, "Source")] ∧
      replay o.events = some ⟨NodeState.STATE_IDLE, NodeState.STATE_IDLE⟩ ∧
      o.sourceState = NodeState.STATE_IDLE ∧ o.destState = NodeState.STATE_IDLE := by
  obtain ⟨o, ho, hev, hs, hd, _⟩ := miMac_events
  refine ⟨o, ho, ?_, ?_, ?_, ?_, hs, hd⟩ <;> rw [hev] <;> decide

/-- C12: in the CSMA/CA session the transitions requested for the source are, in order,
Idle, DataAcquire, ChannelSensing, Transmit, Receive, Transmit, Receive, Idle and those
requested for the destination Idle, Receive, ChannelSensing, Transmit, Receive, Transmit,
Idle; replayed from both roles in Idle, every transition is requested from the current
state of its role; both roles end in Idle, and the returned `stateTransitions` is the number
of edges of the two paths, 7 + 6 = 13. -/
theorem C12_csmaca_paths :
    ∃ o, SimulateTraditionalCSMACA = some o ∧
      transitionsOf Role.source o.events =
        [(NodeState.STATE_IDLE, NodeState.STATE_DATA_ACQUIRE),
         (NodeState.STATE_DATA_ACQUIRE, NodeState.STATE_CHANNEL_SENSING),
         (NodeState.STATE_CHANNEL_SENSING, NodeState.STATE_TRANSMIT),
         (NodeState.STATE_TRANSMIT, NodeState.STATE_RECEIVE),
         (NodeState.STATE_RECEIVE, NodeState.STATE_TRANSMIT),
         (NodeState.STATE_TRANSMIT, NodeState.STATE_RECEIVE),
         (NodeState.STATE_RECEIVE, NodeState.STATE_IDLE)] ∧
      transitionsOf Role.destination o.events =
        [(NodeState.STATE_IDLE, NodeState.STATE_RECEIVE),
         (NodeState.STATE_RECEIVE, NodeState.STATE_CHANNEL_SENSING),
         (NodeState.STATE_CHANNEL_SENSING, NodeState.STATE_TRANSMIT),
         (NodeState.STATE_TRANSMIT, NodeState.STATE_RECEIVE),
         (NodeState.STATE_RECEIVE, NodeState.STATE_TRANSMIT),
         (NodeState.STATE_TRANSMIT, NodeState.STATE_IDLE)] ∧
      replay o.events = some ⟨NodeState.STATE_IDLE, NodeState.STATE_IDLE⟩ ∧
      o.sourceState = NodeState.STATE_IDLE ∧ o.destState = NodeState.STATE_IDLE ∧
      o.energy.stateTransitions = 13 ∧
      (transitionsOf Role.source o.events).length = 7 ∧
      (transitionsOf Role.destination o.events).length = 6 := by
  obtain ⟨o, ho, hev, hs, hd, hn⟩ := csmaCa_events
  refine ⟨o, ho, ?_, ?_, ?_, hs, hd, hn, ?_, ?_⟩ <;> rw [hev] <;> decide

/-- C13: with the readings of the program, X = -45.5, Y = -52.3, Z = -48.7, `SelectBestCoil`
returns coil X (index 0) and reports -45.5, and the MI-MAC session has `bestCoil` = coil X. -/
theorem C13_selects_coil_x :
    CalculateRSSI 0 = some (-45.5) ∧ CalculateRSSI 1 = some (-52.3) ∧
      CalculateRSSI 2 = some (-48.7) ∧ coilNameAt 0 = some "X" ∧
      SelectBestCoil = some (0, -45.5) ∧
      ∃ o, SimulateMultiCoilMIMACProtocol = some o ∧ o.bestCoil = some 0 := by
  refine ⟨?_, ?_, ?_, ?_, ?_, ?_⟩
  · simp [CalculateRSSI, CalculateRSSIFrom, rssiValues]
  · simp [CalculateRSSI, CalculateRSSIFrom, rssiValues]
  · simp [CalculateRSSI, CalculateRSSIFrom, rssiValues]
  · simp [coilNameAt, coilNames]
  · simp [SelectBestCoil, selectBestCoilFrom_fixed]
  · obtain ⟨o, ho, _, _, _, hb⟩ := miMac_events
    exact ⟨o, ho, hb⟩

/-- C14: for every ledger and every two packet sends, made in either order, the resulting
`totalEnergy` is the same, and it is the ledger's `totalEnergy` plus the amount the first
send alone adds to the ledger plus the amount the second send alone adds to it. -/
theorem C14_sends_commute_and_add (energy : EnergyMetrics) (p q : PacketType)
    (coilP coilQ : Int) (senderP receiverP senderQ receiverQ : String) :
    (SendPacket q coilQ senderQ receiverQ
        (SendPacket p coilP senderP receiverP energy)).totalEnergy =
      (SendPacket p coilP senderP receiverP
        (SendPacket q coilQ senderQ receiverQ energy)).totalEnergy ∧
    (SendPacket q coilQ senderQ receiverQ
        (SendPacket p coilP senderP receiverP energy)).totalEnergy =
      energy.totalEnergy +
        ((SendPacket p coilP senderP receiverP energy).totalEnergy - energy.totalEnergy) +
        ((SendPacket q coilQ senderQ receiverQ energy).totalEnergy - energy.totalEnergy) := by
  cases p <;> cases q <;> simp [SendPacket] <;> ring

/-- C15: `totalEnergy` never decreases. For every ledger with non-negative `transmitCurrent`
and every packet type, `SendPacket` returns a ledger whose `totalEnergy` is at least the one
before; and in the MI-MAC session and in the CSMA/CA session, started from a fresh ledger,
the `totalEnergy` after each step is at least the one before the step. -/
theorem C15_energy_never_decreases :
    (∀ (energy : EnergyMetrics) (type : PacketType) (txCoil : Int) (sender receiver : String),
      0 ≤ energy.transmitCurrent →
        energy.totalEnergy ≤ (SendPacket type txCoil sender receiver energy).totalEnergy) ∧
    (∃ o, SimulateMultiCoilMIMACProtocol = some o ∧
      List.Chain' (fun a b : ℚ => a ≤ b)
        (({} : EnergyMetrics).totalEnergy :: o.trace.map (fun step => step.after.totalEnergy))) ∧
    (∃ o, SimulateTraditionalCSMACA = some o ∧
      List.Chain' (fun a b : ℚ => a ≤ b)
        (({} : EnergyMetrics).totalEnergy ::
          o.trace.map (fun step => step.after.totalEnergy))) := by
  refine ⟨?_, ?_, ?_⟩
  · intro energy type txCoil sender receiver h
    cases type <;> simp [SendPacket] <;> positivity
  · simp [SimulateMultiCoilMIMACProtocol, SimulateMultiCoilMIMACProtocolFrom,
      selectBestCoilFrom_fixed, Run.send, Run.transition,
      Run.hold, SendPacketCoilLine, coilNameAt, coilNames, SendPacket, StateTransition,
      intIncrement, wrapInt,
      chargeHold, currentDraw, List.foldlM]
    norm_num
  · simp [SimulateTraditionalCSMACA, Run.send, Run.transition,
      Run.hold, SendPacketCoilLine, coilNameAt, coilNames, SendPacket, StateTransition,
      intIncrement, wrapInt,
      chargeHold, currentDraw]
    norm_num

/-- C15, at a REV send on a fresh ledger, whose `transmitCurrent` is 1120. -/
theorem C15_energy_never_decreases_witness :
    0 ≤ ({} : EnergyMetrics).transmitCurrent ∧
      ({} : EnergyMetrics).totalEnergy ≤
        (SendPacket PacketType.REV_PACKET 0 "Source" "Destination" {}).totalEnergy :=
  ⟨by norm_num,
    C15_energy_never_decreases.1 {} PacketType.REV_PACKET 0 "Source" "Destination"
      (by norm_num)⟩

/-- C16 (the code at its only run): the MI-MAC session sends 4 packets of a type other than
DATA (three REV, one ACK) and the CSMA/CA session 3 (RTS, CTS, ACK); the MI-MAC session does
not send fewer control packets. -/
theorem C16_control_packets_four_and_three :
    ∃ mi cs, SimulateMultiCoilMIMACProtocol = some mi ∧ SimulateTraditionalCSMACA = some cs ∧
      controlCount mi.events = 4 ∧ controlCount cs.events = 3 ∧
      ¬ controlCount mi.events < controlCount cs.events := by
  obtain ⟨mi, hmi, hev, _⟩ := miMac_events
  obtain ⟨cs, hcs, hev2, _⟩ := csmaCa_events
  refine ⟨mi, cs, hmi, hcs, ?_, ?_, ?_⟩
  · rw [hev]; decide
  · rw [hev2]; decide
  · rw [hev, hev2]; decide

/-- C17: in the MI-MAC session the sends are, in order, REV on coil X, REV on coil Y, REV on
coil Z, each from the source to the destination, then ACK from the destination to the source
and DATA from the source to the destination, both on the coil that `SelectBestCoil`
returned; this holds with the readings of the program and with any three readings. -/
theorem C17_send_coils :
    (coilNameAt 0 = some "X" ∧ coilNameAt 1 = some "Y" ∧ coilNameAt 2 = some "Z") ∧
    (∃ o c m, SimulateMultiCoilMIMACProtocol = some o ∧ SelectBestCoil = some (c, m) ∧
      o.bestCoil = some c ∧
      sendsOf o.events =
        [(PacketType.REV_PACKET, 0, "Source", "Destination"),
         (PacketType.REV_PACKET, 1, "Source", "Destination"),
         (PacketType.REV_PACKET, 2, "Source", "Destination"),
         (PacketType.ACK_PACKET, c, "Destination", "Source"),
         (PacketType.DATA_PACKET, c, "Source", "Destination")]) ∧
    (∀ x y z : ℚ, ∃ o c m, SimulateMultiCoilMIMACProtocolFrom [x, y, z] = some o ∧
      SelectBestCoilFrom [x, y, z] = some (c, m) ∧ o.bestCoil = some c ∧
      sendsOf o.events =
        [(PacketType.REV_PACKET, 0, "Source", "Destination"),
         (PacketType.REV_PACKET, 1, "Source", "Destination"),
         (PacketType.REV_PACKET, 2, "Source", "Destination"),
         (PacketType.ACK_PACKET, c, "Destination", "Source"),
         (PacketType.DATA_PACKET, c, "Source", "Destination")]) := by
  refine ⟨by simp [coilNameAt, coilNames], ?_, ?_⟩
  · obtain ⟨o, ho, hb, hs⟩ :=
      miMacFrom_sends rssiValues 0 (-45.5) selectBestCoilFrom_fixed (Or.inl rfl)
    exact ⟨o, 0, -45.5, ho, selectBestCoilFrom_fixed, hb, hs⟩
  · intro x y z
    obtain ⟨c, m, hsel, hc⟩ := selectBestCoilFrom_three x y z
    obtain ⟨o, ho, hb, hs⟩ := miMacFrom_sends [x, y, z] c m hsel hc
    exact ⟨o, c, m, ho, hsel, hb, hs⟩

/-- C18: in exact arithmetic the MI-MAC session returns `totalEnergy = 11183.84` and the
CSMA/CA session `totalEnergy = 14058.4`; the two differ, and the saving that
`CompareProtocols` computes from them is `(14058.4 - 11183.84) / 14058.4 * 100 =
359320/17573`, which lies between 20.44 and 20.45. -/
theorem C18_exact_totals :
    ∃ mi cs, SimulateMultiCoilMIMACProtocol = some mi ∧ SimulateTraditionalCSMACA = some cs ∧
      mi.energy.totalEnergy = 11183.84 ∧ cs.energy.totalEnergy = 14058.4 ∧
      mi.energy.totalEnergy ≠ cs.energy.totalEnergy ∧
      CompareProtocols mi.energy cs.energy = DoubleValue.finite (359320 / 17573) ∧
      ((14058.4 - 11183.84) / 14058.4 * 100 : ℚ) = 359320 / 17573 ∧
      (20.44 : ℚ) < 359320 / 17573 ∧ (359320 / 17573 : ℚ) < 20.45 := by
  simp [SimulateMultiCoilMIMACProtocol, SimulateMultiCoilMIMACProtocolFrom,
    SimulateTraditionalCSMACA, selectBestCoilFrom_fixed, Run.send, Run.transition,
    Run.hold, SendPacketCoilLine, coilNameAt, coilNames, SendPacket, StateTransition,
    intIncrement, wrapInt,
    chargeHold, currentDraw, List.foldlM, CompareProtocols, DoubleValue.div, DoubleValue.scale]
  norm_num

/-- C19: the session of the standalone demo and the MI-MAC session of the comparison program
make the same transitions (role, from, to, reason) and the same packet sends (type, coil,
sender, receiver) in the same order, once the hold charges and the ledgers of the latter are
erased, and select the same coil. -/
theorem C19_demo_same_events :
    ∃ o d, SimulateMultiCoilMIMACProtocol = some o ∧
      MiMacDemo.SimulateMACProtocol = some d ∧
      o.events.filterMap Event.erased = d.trace ∧ o.bestCoil = some d.bestCoil ∧
      o.sourceState = d.sourceState ∧ o.destState = d.destState ∧ d.trace.length = 17 := by
  obtain ⟨o, ho, hev, hs, hd, hb⟩ := miMac_events
  have hsel : MiMacDemo.SelectBestCoil = some (0, -45.5) := selectBestCoilFrom_fixed
  refine ⟨o, ?_⟩
  simp [ho, hev, hs, hd, hb, hsel, MiMacDemo.SimulateMACProtocol, MiMacDemo.SendPacket,
    MiMacDemo.StateTransition, MiMacDemo.PacketType.value, PacketType.value, Event.erased,
    coilNameAt, coilNames, List.foldlM]

/-- C20: for every assignment of readings to the three coils, also one in which no reading is
above -1000, every read of the three-entry readings table and of `coilNames` that
`SelectBestCoil` makes is in bounds, the coil it returns is 0, 1 or 2, the reads of the
readings table and of `coilNames` at that coil are in bounds, and every read that the MI-MAC
session makes is in bounds: the session returns, with that coil as `bestCoil`. -/
theorem C20_coil_in_bounds (x y z : ℚ) :
    ∃ c m, SelectBestCoilFrom [x, y, z] = some (c, m) ∧ (c = 0 ∨ c = 1 ∨ c = 2) ∧
      (∃ reading, CalculateRSSIFrom [x, y, z] c = some reading) ∧
      (∃ name, coilNameAt c = some name) ∧
      (∃ name, SendPacketCoilLine c = some (some name)) ∧
      ∃ o, SimulateMultiCoilMIMACProtocolFrom [x, y, z] = some o ∧ o.bestCoil = some c := by
  obtain ⟨c, m, hsel, hc⟩ := selectBestCoilFrom_three x y z
  obtain ⟨o, ho, hb, _⟩ := miMacFrom_sends [x, y, z] c m hsel hc
  refine ⟨c, m, hsel, hc, ?_, ?_, ?_, o, ho, hb⟩ <;>
    rcases hc with rfl | rfl | rfl <;>
    simp [CalculateRSSIFrom, coilNameAt, coilNames, SendPacketCoilLine]

end MiMac
